import Mathlib

/-!
Verification of `src/app.py` (resume optimizer pipeline).

The Python source is shallowly embedded below:
pure helpers (`parse_json_output`, `create_docx_from_text`, the prompt
builders) become Lean functions; calls into external libraries
(`client.responses.create`, `requests.get` + HTML extraction,
`docx2txt.process`) are passed in as explicit outcome parameters of type
`Except`, so that the control flow written in `app.py` around them
(try/except, try/finally) is modelled faithfully; the temporary-file side
effect of DOCX extraction is modelled by explicit state passing of the
list of existing temporary files.
-/

/-! ## Character-list utilities -/

/-- Index of the first occurrence of `c` in `cs`, if any. -/
def firstIdxOf (cs : List Char) (c : Char) : Option Nat :=
  match cs with
  | [] => none
  | d :: rest => if d = c then some 0 else (firstIdxOf rest c).map Nat.succ

/-- Index of the last occurrence of `c` in `cs`, if any. -/
def lastIdxOf (cs : List Char) (c : Char) : Option Nat :=
  match cs with
  | [] => none
  | d :: rest =>
    match lastIdxOf rest c with
    | some k => some (k + 1)
    | none => if d = c then some 0 else none

/-! ## Model of the regex search in `parse_json_output` (app.py line 115)

`re.search` with the pattern matching a literal open brace, then a greedy
run of arbitrary characters, then a literal close brace.  The engine tries
each start position from the left; at a position holding an open brace the
greedy middle extends to the last close brace in the remainder. -/

/-- Backtracking search for the brace pattern over a character list,
mirroring the leftmost-start, greedy-middle semantics of `re.search`. -/
def reSearchBraces (cs : List Char) : Option (List Char) :=
  match cs with
  | [] => none
  | c :: rest =>
    if c = '\x7b' then
      match lastIdxOf rest '\x7d' with
      | some k => some ((c :: rest).take (k + 2))
      | none => reSearchBraces rest
    else reSearchBraces rest

/-- String wrapper for `reSearchBraces`: the matched span of
the regex search in `parse_json_output`, if any. -/
def reSearchBracesStr (s : String) : Option String :=
  (reSearchBraces s.toList).map String.mk

/-! ## Model of Python `json.loads`

JSON values; numbers are kept as their source lexeme (no claim depends on
numeric value).  The grammar follows Python's `json` module: strict strings
(unescaped control characters rejected, surrogate pairs combined), the
non-standard constants NaN and Infinity accepted, whitespace limited to
space, tab, newline, carriage return, duplicate object keys resolved as in
a Python dict (first position kept, last value wins). -/

inductive Json where
  | null : Json
  | bool : Bool → Json
  | num : String → Json
  | str : String → Json
  | arr : List Json → Json
  | obj : List (String × Json) → Json

/-- Keys of a JSON object, in dict order; `[]` for non-objects. -/
def Json.keys : Json → List String
  | Json.obj kvs => kvs.map Prod.fst
  | _ => []

/-- JSON whitespace skip (space, tab, newline, carriage return), as in
Python's `json` scanner. -/
def skipWs (cs : List Char) : List Char :=
  match cs with
  | [] => []
  | c :: rest =>
    if c = ' ' ∨ c = '\t' ∨ c = '\n' ∨ c = '\x0d' then skipWs rest else c :: rest

/-- Value of a hexadecimal digit character. -/
def hexVal (c : Char) : Option Nat :=
  if '0' ≤ c ∧ c ≤ '9' then some (c.toNat - 48)
  else if 'a' ≤ c ∧ c ≤ 'f' then some (c.toNat - 87)
  else if 'A' ≤ c ∧ c ≤ 'F' then some (c.toNat - 55)
  else none

/-- Four hex digits of a unicode escape, returning the code unit. -/
def parseEsc4Hex (cs : List Char) : Option (Nat × List Char) :=
  match cs with
  | a :: b :: c :: d :: rest =>
    match hexVal a, hexVal b, hexVal c, hexVal d with
    | some ha, some hb, some hc, some hd =>
      some (((ha * 16 + hb) * 16 + hc) * 16 + hd, rest)
    | _, _, _, _ => none
  | _ => none

/-- Strict JSON string body parser (after the opening quote), as in
Python `json.scanner`: standard escapes, unicode escapes with surrogate
pairs combined, unescaped control characters rejected.  A lone surrogate
(legal for Python's parser) maps to the null character here, since a Lean
`Char` cannot hold a surrogate code point; this changes no
success/failure outcome. -/
def parseJStr : Nat → List Char → List Char → Option (String × List Char)
  | 0, _, _ => none
  | fuel + 1, cs, acc =>
    match cs with
    | [] => none
    | '"' :: rest => some (String.mk acc.reverse, rest)
    | '\\' :: rest =>
      match rest with
      | [] => none
      | e :: rest1 =>
        if e = '"' then parseJStr fuel rest1 ('"' :: acc)
        else if e = '\\' then parseJStr fuel rest1 ('\\' :: acc)
        else if e = '/' then parseJStr fuel rest1 ('/' :: acc)
        else if e = 'b' then parseJStr fuel rest1 ('\x08' :: acc)
        else if e = 'f' then parseJStr fuel rest1 ('\x0c' :: acc)
        else if e = 'n' then parseJStr fuel rest1 ('\n' :: acc)
        else if e = 'r' then parseJStr fuel rest1 ('\x0d' :: acc)
        else if e = 't' then parseJStr fuel rest1 ('\t' :: acc)
        else if e = 'u' then
          match parseEsc4Hex rest1 with
          | none => none
          | some (n, rest2) =>
            if 0xd800 ≤ n ∧ n ≤ 0xdbff then
              match rest2 with
              | '\\' :: 'u' :: rest3 =>
                match parseEsc4Hex rest3 with
                | some (m, rest4) =>
                  if 0xdc00 ≤ m ∧ m ≤ 0xdfff then
                    parseJStr fuel rest4
                      (Char.ofNat (0x10000 + (n - 0xd800) * 0x400 + (m - 0xdc00)) :: acc)
                  else parseJStr fuel rest2 (Char.ofNat n :: acc)
                | none => parseJStr fuel rest2 (Char.ofNat n :: acc)
              | _ => parseJStr fuel rest2 (Char.ofNat n :: acc)
            else parseJStr fuel rest2 (Char.ofNat n :: acc)
        else none
    | c :: rest => if c.toNat < 0x20 then none else parseJStr fuel rest (c :: acc)

/-- Longest digit run at the head of the list, and the remainder. -/
def spanDigits (cs : List Char) : List Char × List Char :=
  match cs with
  | [] => ([], [])
  | c :: rest =>
    if c.isDigit then
      let p := spanDigits rest
      (c :: p.1, p.2)
    else ([], c :: rest)

/-- Integer part of a JSON number: a single zero, or a nonzero digit
followed by digits. -/
def parseIntPart (cs : List Char) : Option (List Char × List Char) :=
  match cs with
  | [] => none
  | c :: rest =>
    if c = '0' then some (['0'], rest)
    else if c.isDigit then
      let p := spanDigits rest
      some (c :: p.1, p.2)
    else none

/-- Optional fraction part: a dot followed by at least one digit. -/
def parseFrac (cs : List Char) : List Char × List Char :=
  match cs with
  | '.' :: c :: rest =>
    if c.isDigit then
      let p := spanDigits rest
      ('.' :: c :: p.1, p.2)
    else ([], '.' :: c :: rest)
  | _ => ([], cs)

/-- Optional exponent part: e or E, optional sign, at least one digit. -/
def parseExp (cs : List Char) : List Char × List Char :=
  match cs with
  | [] => ([], [])
  | e :: rest =>
    if e = 'e' ∨ e = 'E' then
      match rest with
      | [] => ([], e :: rest)
      | s :: rest2 =>
        if s = '+' ∨ s = '-' then
          match rest2 with
          | [] => ([], e :: rest)
          | d :: rest3 =>
            if d.isDigit then
              let p := spanDigits rest3
              (e :: s :: d :: p.1, p.2)
            else ([], e :: rest)
        else if s.isDigit then
          let p := spanDigits rest2
          (e :: s :: p.1, p.2)
        else ([], e :: rest)
    else ([], e :: rest)

/-- JSON number at the head of the list, returned as its lexeme,
following the number regular expression of Python's `json` module. -/
def parseJNum (cs : List Char) : Option (String × List Char) :=
  let neg : List Char × List Char :=
    match cs with
    | '-' :: r => (['-'], r)
    | _ => ([], cs)
  match parseIntPart neg.2 with
  | none => none
  | some (ip, cs2) =>
    let fp := parseFrac cs2
    let ep := parseExp fp.2
    some (String.mk (neg.1 ++ ip ++ fp.1 ++ ep.1), ep.2)

/-- Insert a key/value pair as a Python dict does: an existing key keeps
its position and takes the new value, a new key is appended. -/
def insertKV (kvs : List (String × Json)) (k : String) (v : Json) :
    List (String × Json) :=
  match kvs with
  | [] => [(k, v)]
  | (k0, v0) :: rest => if k0 = k then (k0, v) :: rest else (k0, v0) :: insertKV rest k v

mutual

/-- JSON value parser (fuel-based; the fuel only has to exceed the input
length since every recursive call consumes input). -/
def parseJValue : Nat → List Char → Option (Json × List Char)
  | 0, _ => none
  | fuel + 1, cs =>
    match cs with
    | [] => none
    | c :: rest =>
      if c = '"' then
        match parseJStr (rest.length + 1) rest [] with
        | some (s, rest2) => some (Json.str s, rest2)
        | none => none
      else if c = '\x7b' then
        match parseJObjBody fuel (skipWs rest) with
        | some (kvs, rest2) => some (Json.obj kvs, rest2)
        | none => none
      else if c = '[' then
        match parseJArrBody fuel (skipWs rest) with
        | some (xs, rest2) => some (Json.arr xs, rest2)
        | none => none
      else if cs.take 4 = ['n', 'u', 'l', 'l'] then some (Json.null, cs.drop 4)
      else if cs.take 4 = ['t', 'r', 'u', 'e'] then some (Json.bool true, cs.drop 4)
      else if cs.take 5 = ['f', 'a', 'l', 's', 'e'] then some (Json.bool false, cs.drop 5)
      else
        match parseJNum cs with
        | some (lex, rest2) => some (Json.num lex, rest2)
        | none =>
          if cs.take 3 = ['N', 'a', 'N'] then some (Json.num "NaN", cs.drop 3)
          else if cs.take 8 = ['I', 'n', 'f', 'i', 'n', 'i', 't', 'y'] then
            some (Json.num "Infinity", cs.drop 8)
          else if cs.take 9 = ['-', 'I', 'n', 'f', 'i', 'n', 'i', 't', 'y'] then
            some (Json.num "-Infinity", cs.drop 9)
          else none

/-- Object body after the opening brace (whitespace already skipped). -/
def parseJObjBody : Nat → List Char → Option (List (String × Json) × List Char)
  | 0, _ => none
  | fuel + 1, cs =>
    match cs with
    | '\x7d' :: rest => some ([], rest)
    | '"' :: rest =>
      match parseJStr (rest.length + 1) rest [] with
      | some (key, rest2) =>
        match skipWs rest2 with
        | ':' :: rest3 =>
          match parseJValue fuel (skipWs rest3) with
          | some (v, rest4) => parseJObjMore fuel (skipWs rest4) (insertKV [] key v)
          | none => none
        | _ => none
      | none => none
    | _ => none

/-- Further object members: a close brace ends the object, a comma
precedes another key/value pair. -/
def parseJObjMore : Nat → List Char → List (String × Json) →
    Option (List (String × Json) × List Char)
  | 0, _, _ => none
  | fuel + 1, cs, acc =>
    match cs with
    | '\x7d' :: rest => some (acc, rest)
    | ',' :: rest =>
      match skipWs rest with
      | '"' :: rest1 =>
        match parseJStr (rest1.length + 1) rest1 [] with
        | some (key, rest2) =>
          match skipWs rest2 with
          | ':' :: rest3 =>
            match parseJValue fuel (skipWs rest3) with
            | some (v, rest4) => parseJObjMore fuel (skipWs rest4) (insertKV acc key v)
            | none => none
          | _ => none
        | none => none
      | _ => none
    | _ => none

/-- Array body after the opening bracket (whitespace already skipped). -/
def parseJArrBody : Nat → List Char → Option (List Json × List Char)
  | 0, _ => none
  | fuel + 1, cs =>
    match cs with
    | ']' :: rest => some ([], rest)
    | _ =>
      match parseJValue fuel cs with
      | some (v, rest) => parseJArrMore fuel (skipWs rest) [v]
      | none => none

/-- Further array elements, accumulated in reverse. -/
def parseJArrMore : Nat → List Char → List Json → Option (List Json × List Char)
  | 0, _, _ => none
  | fuel + 1, cs, acc =>
    match cs with
    | ']' :: rest => some (acc.reverse, rest)
    | ',' :: rest =>
      match parseJValue fuel (skipWs rest) with
      | some (v, rest2) => parseJArrMore fuel (skipWs rest2) (v :: acc)
      | none => none
    | _ => none

end

/-- Model of Python `json.loads`: skip whitespace, parse one value,
skip whitespace, require the end of the input; `none` models a raised
`JSONDecodeError`. -/
def jsonLoads (s : String) : Option Json :=
  match parseJValue (s.toList.length + 1) (skipWs s.toList) with
  | some (j, rest) => if skipWs rest = [] then some j else none
  | none => none

/-! ## `parse_json_output` (app.py lines 113-124) -/

/-- Fallback mapping of `parse_json_output` (app.py lines 120-124): the
whole raw output as `optimized_resume` and two fixed placeholder strings. -/
def fallbackOutput (output_text : String) : Json :=
  Json.obj
    [("optimized_resume", Json.str output_text),
     ("changelog", Json.str "Could not parse changelog from model output."),
     ("suggestions", Json.str "Could not parse suggestions from model output.")]

/-- Model of `parse_json_output` (app.py lines 113-124): search for the
brace-delimited span; if found and `json.loads` succeeds on it, return the
parsed value; otherwise (no match, or the `json.loads` exception caught by
the bare except) return the fallback mapping.  The function is total: no
exception escapes. -/
def parse_json_output (output_text : String) : Json :=
  match reSearchBracesStr output_text with
  | some span =>
    match jsonLoads span with
    | some j => j
    | none => fallbackOutput output_text
  | none => fallbackOutput output_text

/-- Failure of the parsing attempt inside `parse_json_output`: either the
regex finds no span, or `json.loads` raises on the matched span. -/
def parseFails (s : String) : Prop :=
  reSearchBracesStr s = none ∨
    ∃ span, reSearchBracesStr s = some span ∧ jsonLoads span = none

/-! ## `call_openai_chat` (app.py lines 84-97)

The external call `client.responses.create` followed by the
`response.output_text` projection is modelled by the `create` parameter:
`Except.ok t` when the call returns output text `t`, `Except.error e`
when it raises an exception whose string form is `e`. -/

/-- Model of `call_openai_chat`: on success return the output text and no
error, on any exception return no text and the exception's string. -/
def call_openai_chat (create : String → String → Except String String)
    (system_prompt user_prompt : String) : Option String × Option String :=
  match create system_prompt user_prompt with
  | Except.ok output_text => (some output_text, none)
  | Except.error e => (none, some e)

/-! ## Python string helpers used by `create_docx_from_text` and the
fetch handler -/

/-- Whitespace as recognized by Python `str.strip` and `str.isspace`
(ASCII whitespace, the control separators, NEL, and the Unicode space
separators). -/
def pyIsSpace (c : Char) : Bool :=
  decide ((9 ≤ c.toNat ∧ c.toNat ≤ 13) ∨ c.toNat = 32 ∨
    (28 ≤ c.toNat ∧ c.toNat ≤ 31) ∨ c.toNat = 0x85 ∨ c.toNat = 0xa0 ∨
    c.toNat = 0x1680 ∨ (0x2000 ≤ c.toNat ∧ c.toNat ≤ 0x200a) ∨
    c.toNat = 0x2028 ∨ c.toNat = 0x2029 ∨ c.toNat = 0x202f ∨
    c.toNat = 0x205f ∨ c.toNat = 0x3000)

/-- Model of Python `str.strip()` with no argument: remove whitespace
from both ends. -/
def pyStrip (s : String) : String :=
  String.mk (((s.toList.dropWhile pyIsSpace).reverse.dropWhile pyIsSpace).reverse)

/-- Model of Python `str.startswith` with a string argument: the
argument is a prefix of the receiver. -/
def pyStartswith (s pre : String) : Bool :=
  List.isPrefixOf pre.toList s.toList

/-- Line boundary characters of Python `str.splitlines`. -/
def isLineBoundary (c : Char) : Bool :=
  c = '\n' || c = '\x0d' || c = '\x0b' || c = '\x0c' || c = '\x1c' ||
    c = '\x1d' || c = '\x1e' || c = '\x85' || c = '\u2028' || c = '\u2029'

/-- Collapse each carriage-return-plus-newline pair into a single
newline, so that the pair counts as one line boundary as in Python
`str.splitlines`. -/
def normalizeCRLF (cs : List Char) : List Char :=
  match cs with
  | [] => []
  | '\x0d' :: '\n' :: rest => '\n' :: normalizeCRLF rest
  | c :: rest => c :: normalizeCRLF rest

/-- Worker for `pySplitlines`: `acc` holds the current line reversed. -/
def pySplitlinesAux (cs : List Char) (acc : List Char) : List String :=
  match cs with
  | [] => if acc = [] then [] else [String.mk acc.reverse]
  | c :: rest =>
    if isLineBoundary c then String.mk acc.reverse :: pySplitlinesAux rest []
    else pySplitlinesAux rest (c :: acc)

/-- Model of Python `str.splitlines()`: split at line boundaries, a
carriage return plus newline counting as one boundary, with no trailing
empty line for a terminal boundary. -/
def pySplitlines (s : String) : List String :=
  pySplitlinesAux (normalizeCRLF s.toList) []

/-! ## `create_docx_from_text` (app.py lines 99-111) -/

/-- One paragraph of the produced document: its text and optional style
(the style argument of `docx`'s `add_paragraph`). -/
structure Paragraph where
  text : String
  style : Option String
  deriving DecidableEq

/-- The document object under construction: its paragraph list. -/
structure Document where
  paragraphs : List Paragraph
  deriving DecidableEq

/-- Model of `docx`'s `Document.add_paragraph`: append one paragraph. -/
def Document.add_paragraph (d : Document) (t : String) (style : Option String) :
    Document :=
  Document.mk (d.paragraphs ++ [Paragraph.mk t style])

/-- Loop body of `create_docx_from_text` (app.py lines 101-107): a line
stripping to empty adds an empty paragraph, a line whose stripped form
starts with a dash-space adds a bullet holding the stripped line minus
that prefix, any other line is added verbatim as a plain paragraph. -/
def docxStep (doc : Document) (line : String) : Document :=
  if pyStrip line = "" then doc.add_paragraph "" none
  else if pyStartswith (pyStrip line) "- " then
    doc.add_paragraph (String.mk ((pyStrip line).toList.drop 2)) (some "List Bullet")
  else doc.add_paragraph line none

/-- Model of `create_docx_from_text` (app.py lines 99-111); the
`BytesIO` save step is identity on content and omitted. -/
def create_docx_from_text (text : String) : Document :=
  List.foldl docxStep (Document.mk []) (pySplitlines text)

/-- The per-line paragraph as the code computes it (for relating the
built document to a map over lines). -/
def docxLineParagraph (line : String) : Paragraph :=
  if pyStrip line = "" then Paragraph.mk "" none
  else if pyStartswith (pyStrip line) "- " then
    Paragraph.mk (String.mk ((pyStrip line).toList.drop 2)) (some "List Bullet")
  else Paragraph.mk line none

/-- The per-line paragraph as the specification words it: a blank line
becomes an empty paragraph, a line beginning with dash-space becomes a
bulleted item with that prefix stripped, all other lines become plain
paragraphs. -/
def specLineParagraph (line : String) : Paragraph :=
  if line = "" then Paragraph.mk "" none
  else if pyStartswith line "- " then
    Paragraph.mk (String.mk (line.toList.drop 2)) (some "List Bullet")
  else Paragraph.mk line none

/-! ## `fetch_text_from_url` (app.py lines 46-62) and the fetch button
handler (app.py lines 134-142)

The try-block body (HTTP GET, `raise_for_status`, HTML parsing and the
main/largest-div text selection) runs entirely in external libraries; its
outcome is the `body` parameter: `Except.ok t` with the selected text `t`
before the final strip, `Except.error e` when any step raises an
exception whose string form is `e`. -/

/-- Model of `fetch_text_from_url`: the stripped text on success, the
sentinel-prefixed message on any exception. -/
def fetch_text_from_url (body : Except String String) : String :=
  match body with
  | Except.ok text => pyStrip text
  | Except.error e => String.append "Error fetching URL: " e

/-- Outcome of the fetch button handler: an error display, or a success
display carrying the new job description. -/
inductive FetchOutcome where
  | failure : String → FetchOutcome
  | success : String → FetchOutcome
  deriving DecidableEq

/-- Model of the fetch button handler (app.py lines 136-142): a result
starting with the bare prefix Error is shown as an error and the job
description is left unchanged; otherwise the job description is replaced.
Returns the outcome and the resulting job description. -/
def fetchButtonHandler (fetched job_description : String) :
    FetchOutcome × String :=
  if pyStartswith fetched "Error" then
    (FetchOutcome.failure fetched, job_description)
  else (FetchOutcome.success fetched, fetched)

/-! ## Text extractors (app.py lines 27-44)

`pdfplumber.open` with the page-text extraction, and `docx2txt.process`,
are external libraries; their outcomes are explicit parameters.  For the
DOCX variant the filesystem of temporary files is passed as explicit
state to capture the create/remove effects. -/

/-- Model of `extract_text_from_pdf` (app.py lines 27-34): `pdfOpen` is
the outcome of opening the document and reading each page's
`extract_text` result (`none` for a page without text).  Pages yielding a
falsy value (no text or empty text) are skipped and the rest joined with
newlines; an exception from the library propagates, since the source has
no handler. -/
def extract_text_from_pdf (pdfOpen : Except String (List (Option String))) :
    Except String String :=
  match pdfOpen with
  | Except.error e => Except.error e
  | Except.ok pages =>
    Except.ok (String.intercalate "\n"
      (pages.filterMap (fun t =>
        match t with
        | some u => if u = "" then none else some u
        | none => none)))

/-- Model of `extract_text_from_docx` (app.py lines 36-44): the
temporary file `tmp_path` is created (appended to the filesystem state
`fs`), `docx2txt.process` runs with outcome `process` (`Except.ok` with
its possibly-None return, `Except.error` when it raises), the `finally`
block removes the temporary file in either case, and then the result
`text or ""` is returned or the exception propagates. -/
def extract_text_from_docx (process : Except String (Option String))
    (fs : List String) (tmp_path : String) : Except String String × List String :=
  let fs1 := fs ++ [tmp_path]
  let fs2 := List.erase fs1 tmp_path
  match process with
  | Except.ok text => (Except.ok (Option.getD text ""), fs2)
  | Except.error e => (Except.error e, fs2)

/-! ## Helper lemmas -/

lemma erase_append_singleton {α : Type} [DecidableEq α] (p : α) (fs : List α)
    (h : p ∉ fs) : (fs ++ [p]).erase p = fs := by
  induction fs with
  | nil => simp
  | cons a l ih =>
    have ha : a ≠ p := fun e => h (e ▸ List.mem_cons_self a l)
    have h2 : p ∉ l := fun m => h (List.mem_cons_of_mem a m)
    simp [List.erase_cons, ha, ih h2]

/-! ## Claim theorems -/

/-- Claim C1: on the model output string holding exactly the well-formed
three-field JSON object with values A, B, C, `parse_json_output` returns
exactly that mapping, with no other keys and no fallback values. -/
theorem c1_parser_returns_exact_mapping :
    parse_json_output
        "\x7b\"optimized_resume\":\"A\",\"changelog\":\"B\",\"suggestions\":\"C\"\x7d" =
      Json.obj
        [("optimized_resume", Json.str "A"),
         ("changelog", Json.str "B"),
         ("suggestions", Json.str "C")] := rfl

/-- Claim C2: on every input on which the parsing attempt fails (no
brace span found, or `json.loads` raising on the found span),
`parse_json_output` returns the fixed fallback mapping: the entire raw
input as `optimized_resume` and the two fixed placeholder strings.  The
function is total, so no exception escapes. -/
theorem c2_parser_fallback_on_failure (s : String) (h : parseFails s) :
    parse_json_output s =
      Json.obj
        [("optimized_resume", Json.str s),
         ("changelog", Json.str "Could not parse changelog from model output."),
         ("suggestions", Json.str "Could not parse suggestions from model output.")] := by
  rcases h with h | ⟨span, h1, h2⟩
  · simp [parse_json_output, fallbackOutput, h]
  · simp [parse_json_output, fallbackOutput, h1, h2]

/-- Witness for C2 at the concrete input named by the claim: the string
without any brace yields the fallback mapping. -/
theorem c2_parser_fallback_on_failure_witness :
    parseFails "plain text only" ∧
      parse_json_output "plain text only" =
        Json.obj
          [("optimized_resume", Json.str "plain text only"),
           ("changelog", Json.str "Could not parse changelog from model output."),
           ("suggestions", Json.str "Could not parse suggestions from model output.")] :=
  ⟨Or.inl rfl, c2_parser_fallback_on_failure "plain text only" (Or.inl rfl)⟩

/-- Counterexample to claim C3 as stated: on an input whose brace span
parses as a JSON object with a single key, `parse_json_output` returns
that one-key mapping, not a mapping with the three expected keys. -/
theorem c3_counterexample_single_key :
    (parse_json_output "\x7b\"a\":\"b\"\x7d").keys = ["a"] ∧
      (parse_json_output "\x7b\"a\":\"b\"\x7d").keys ≠
        ["optimized_resume", "changelog", "suggestions"] ∧
      (parse_json_output "\x7b\"a\":\"b\"\x7d").keys.length ≠ 3 := by
  refine ⟨rfl, ?_, ?_⟩ <;> decide

/-- Claim C3 as amended: whenever the parsing attempt fails,
`parse_json_output` returns a mapping with exactly the three keys
`optimized_resume`, `changelog`, `suggestions`; when the span parses
successfully the parsed object is returned as-is, so its keys are
whatever the model produced. -/
theorem c3_amended_three_keys_on_failure (s : String) (h : parseFails s) :
    (parse_json_output s).keys = ["optimized_resume", "changelog", "suggestions"] := by
  rw [c2_parser_fallback_on_failure s h]
  rfl

/-- Witness for the amended C3 at a concrete input whose span is found
but is malformed JSON, exercising the caught-exception branch. -/
theorem c3_amended_three_keys_on_failure_witness :
    parseFails "\x7b:\x7d" ∧
      (parse_json_output "\x7b:\x7d").keys =
        ["optimized_resume", "changelog", "suggestions"] :=
  ⟨Or.inr ⟨"\x7b:\x7d", rfl, rfl⟩,
    c3_amended_three_keys_on_failure "\x7b:\x7d" (Or.inr ⟨"\x7b:\x7d", rfl, rfl⟩)⟩

/-- Claim C4: for every outcome of the underlying call and every pair of
prompts, `call_openai_chat` returns either the output text with no
error or no text with the exception's string message; being a total
function of the call's outcome, it propagates no exception. -/
theorem c4_model_client_result_shape
    (create : String → String → Except String String)
    (system_prompt user_prompt : String) :
    ((∃ t, call_openai_chat create system_prompt user_prompt = (some t, none)) ∨
      (∃ e, call_openai_chat create system_prompt user_prompt = (none, some e))) ∧
    (∀ e, create system_prompt user_prompt = Except.error e →
      call_openai_chat create system_prompt user_prompt = (none, some e)) := by
  constructor
  · cases h : create system_prompt user_prompt with
    | ok t => exact Or.inl ⟨t, by simp [call_openai_chat, h]⟩
    | error e => exact Or.inr ⟨e, by simp [call_openai_chat, h]⟩
  · intro e he
    simp [call_openai_chat, he]

/-- Witness for C4 at a concrete failing call: the exception message is
returned as the error component. -/
theorem c4_model_client_result_shape_witness :
    call_openai_chat (fun _ _ => Except.error "connection reset by peer")
        "sys prompt" "user prompt" =
      (none, some "connection reset by peer") :=
  (c4_model_client_result_shape (fun _ _ => Except.error "connection reset by peer")
    "sys prompt" "user prompt").2 "connection reset by peer" rfl

/-- Claim C7: whenever the fetch body raises (any exception, including
the one `raise_for_status` raises on a non-2xx status),
`fetch_text_from_url` returns the message prefixed with the sentinel,
on its ordinary return channel. -/
theorem c7_fetch_error_sentinel (body : Except String String) (e : String)
    (h : body = Except.error e) :
    fetch_text_from_url body = String.append "Error fetching URL: " e ∧
      ∃ tail, fetch_text_from_url body = String.append "Error fetching URL: " tail := by
  subst h
  exact ⟨rfl, e, rfl⟩

/-- Witness for C7 at a concrete HTTP 404 failure. -/
theorem c7_fetch_error_sentinel_witness :
    fetch_text_from_url (Except.error "404 Client Error: Not Found for url") =
      String.append "Error fetching URL: " "404 Client Error: Not Found for url" :=
  (c7_fetch_error_sentinel (Except.error "404 Client Error: Not Found for url")
    "404 Client Error: Not Found for url" rfl).1

/-- Claim C9: for every outcome of `docx2txt.process` and every prior
temporary-file state not already holding the chosen path,
`extract_text_from_docx` leaves the state exactly as it found it — the
temporary file it creates is removed on both the success path and the
exception path. -/
theorem c9_docx_temp_file_removed (process : Except String (Option String))
    (fs : List String) (tmp_path : String) (h : tmp_path ∉ fs) :
    (extract_text_from_docx process fs tmp_path).2 = fs ∧
      tmp_path ∉ (extract_text_from_docx process fs tmp_path).2 := by
  have h2 : (fs ++ [tmp_path]).erase tmp_path = fs :=
    erase_append_singleton tmp_path fs h
  cases process <;> simp [extract_text_from_docx, h2, h]

/-- Witness for C9 at a concrete success outcome and empty prior state. -/
theorem c9_docx_temp_file_removed_witness :
    ("/tmp/resume.docx" ∉ ([] : List String)) ∧
      (extract_text_from_docx (Except.ok (some "resume text")) []
          "/tmp/resume.docx").2 = [] :=
  ⟨List.not_mem_nil "/tmp/resume.docx",
    (c9_docx_temp_file_removed (Except.ok (some "resume text")) []
      "/tmp/resume.docx" (List.not_mem_nil "/tmp/resume.docx")).1⟩

/-- Claim C10: the fetch handler classifies by the bare prefix Error
only, so a successful fetch whose stripped page text begins with Error
is displayed as a failure and the job description is not updated, even
though `fetch_text_from_url` succeeded and its result does not carry the
full sentinel. -/
theorem c10_fetch_handler_misclassifies_success :
    fetch_text_from_url (Except.ok "Errors and omissions specialist role") =
        "Errors and omissions specialist role" ∧
      pyStartswith "Errors and omissions specialist role" "Error fetching URL: " = false ∧
      fetchButtonHandler
          (fetch_text_from_url (Except.ok "Errors and omissions specialist role"))
          "previously pasted job description" =
        (FetchOutcome.failure "Errors and omissions specialist role",
          "previously pasted job description") :=
  ⟨rfl, rfl, rfl⟩

/-! ## Claim C5: the document builder -/

lemma docxStep_paragraphs (d : Document) (line : String) :
    (docxStep d line).paragraphs = d.paragraphs ++ [docxLineParagraph line] := by
  by_cases h1 : pyStrip line = ""
  · simp [docxStep, docxLineParagraph, Document.add_paragraph, h1]
  · by_cases h2 : pyStartswith (pyStrip line) "- " = true
    · simp [docxStep, docxLineParagraph, Document.add_paragraph, h1, h2]
    · simp [docxStep, docxLineParagraph, Document.add_paragraph, h1, h2]

lemma foldl_docxStep_paragraphs (lines : List String) (d : Document) :
    (List.foldl docxStep d lines).paragraphs =
      d.paragraphs ++ lines.map docxLineParagraph := by
  induction lines generalizing d with
  | nil => simp
  | cons l ls ih =>
    simp [List.foldl_cons, ih (docxStep d l), docxStep_paragraphs]

/-- Counterexample to claim C5 as stated: the source applies the bullet
test to the stripped line, so the indented line holding two spaces, a
dash, a space and an x — which does not itself begin with dash-space —
still becomes a bulleted item, where the stated rule makes it a plain
paragraph. -/
theorem c5_counterexample_indented_bullet :
    (create_docx_from_text "  - x").paragraphs ≠
        (pySplitlines "  - x").map specLineParagraph ∧
      (create_docx_from_text "  - x").paragraphs =
        [Paragraph.mk "x" (some "List Bullet")] ∧
      (pySplitlines "  - x").map specLineParagraph =
        [Paragraph.mk "  - x" none] := by
  refine ⟨?_, rfl, rfl⟩
  decide

/-- Claim C5 as amended: each line of the input yields exactly one
paragraph unit, determined from the stripped line — a line stripping to
empty gives an empty paragraph, a line whose stripped form begins with
dash-space gives a bulleted item holding the stripped line minus that
prefix, and every other line gives a plain paragraph with its original
text; in particular the claim's concrete example produces its four
stated units. -/
theorem c5_renderer_line_to_paragraph :
    (∀ text, (create_docx_from_text text).paragraphs =
        (pySplitlines text).map docxLineParagraph) ∧
      (create_docx_from_text "Header\n- bullet one\n\nFooter").paragraphs =
        [Paragraph.mk "Header" none,
         Paragraph.mk "bullet one" (some "List Bullet"),
         Paragraph.mk "" none,
         Paragraph.mk "Footer" none] := by
  constructor
  · intro text
    simpa [create_docx_from_text] using
      foldl_docxStep_paragraphs (pySplitlines text) (Document.mk [])
  · rfl

/-! ## Claim C8: the matched span of the regex search -/

lemma lastIdxOf_isSome {cs : List Char} {c : Char} {j : Nat}
    (h : cs.get? j = some c) : ∃ k, lastIdxOf cs c = some k := by
  induction cs generalizing j with
  | nil => simp at h
  | cons d rest ih =>
    cases hl : lastIdxOf rest c with
    | some k => exact ⟨k + 1, by simp [lastIdxOf, hl]⟩
    | none =>
      cases j with
      | zero =>
        simp at h
        exact ⟨0, by simp [lastIdxOf, hl, h]⟩
      | succ m =>
        obtain ⟨k, hk⟩ := ih (h : rest.get? m = some c)
        simp [hk] at hl

lemma reSearchBraces_first_last (cs : List Char) :
    ∀ i j, i < j → cs.get? i = some '\x7b' → cs.get? j = some '\x7d' →
      ∃ i0 j0, firstIdxOf cs '\x7b' = some i0 ∧ lastIdxOf cs '\x7d' = some j0 ∧
        reSearchBraces cs = some ((cs.drop i0).take (j0 + 1 - i0)) := by
  induction cs with
  | nil => intro i j _ hi _; simp at hi
  | cons c rest ih =>
    intro i j hij hi hj
    by_cases hc : c = '\x7b'
    · have hj1 : ∃ m, rest.get? m = some '\x7d' := by
        cases j with
        | zero => exact absurd hij (Nat.not_lt_zero i)
        | succ m => exact ⟨m, hj⟩
      obtain ⟨m, hm⟩ := hj1
      obtain ⟨k, hk⟩ := lastIdxOf_isSome hm
      refine ⟨0, k + 1, ?_, ?_, ?_⟩
      · simp [firstIdxOf, hc]
      · simp [lastIdxOf, hk]
      · simp [reSearchBraces, hc, hk]
    · have hi0 : i ≠ 0 := by
        intro e
        subst e
        simp at hi
        exact hc hi
      cases i with
      | zero => exact absurd rfl hi0
      | succ m =>
        cases j with
        | zero => exact absurd hij (by omega)
        | succ n =>
          have hmn : m < n := Nat.lt_of_succ_lt_succ hij
          obtain ⟨i0, j0, h1, h2, h3⟩ := ih m n hmn hi hj
          refine ⟨i0 + 1, j0 + 1, ?_, ?_, ?_⟩
          · simp [firstIdxOf, hc, h1]
          · simp [lastIdxOf, h2]
          · simp [reSearchBraces, hc, h3, Nat.succ_sub_succ]

/-- Claim C8: on every input holding an open brace with a close brace
somewhere after it, the span the parser hands to `json.loads` is exactly
the substring from the first open brace in the text to the last close
brace in the text — the greedy, nesting-unaware match. -/
theorem c8_greedy_span (s : String) (i j : Nat) (hij : i < j)
    (hi : s.toList.get? i = some '\x7b') (hj : s.toList.get? j = some '\x7d') :
    ∃ i0 j0, firstIdxOf s.toList '\x7b' = some i0 ∧
      lastIdxOf s.toList '\x7d' = some j0 ∧
      reSearchBracesStr s =
        some (String.mk ((s.toList.drop i0).take (j0 + 1 - i0))) := by
  obtain ⟨i0, j0, h1, h2, h3⟩ := reSearchBraces_first_last s.toList i j hij hi hj
  refine ⟨i0, j0, h1, h2, ?_⟩
  show (reSearchBraces s.toList).map String.mk = _
  rw [h3]
  rfl

/-- Witness for C8 on a concrete input with nested and repeated braces:
the span runs from the first open brace to the last close brace, past
the first close brace. -/
theorem c8_greedy_span_witness :
    reSearchBracesStr "ab\x7bcd\x7def\x7d" = some "\x7bcd\x7def\x7d" ∧
      ∃ i0 j0, firstIdxOf "ab\x7bcd\x7def\x7d".toList '\x7b' = some i0 ∧
        lastIdxOf "ab\x7bcd\x7def\x7d".toList '\x7d' = some j0 ∧
        reSearchBracesStr "ab\x7bcd\x7def\x7d" =
          some (String.mk (("ab\x7bcd\x7def\x7d".toList.drop i0).take (j0 + 1 - i0))) :=
  ⟨rfl, c8_greedy_span "ab\x7bcd\x7def\x7d" 2 5 (by decide) (by decide) (by decide)⟩

/-! ## Development notes on the extractors (claim C6 context)

`extract_text_from_pdf` and `extract_text_from_docx` contain no exception
handler in the source (the DOCX variant's try/finally only guarantees
cleanup), so an exception raised by the underlying library on an invalid
input propagates to the caller; whether the libraries raise on empty
bytes is not decidable from this repository.  The plain-text fallback at
app.py line 161 is a library-level byte decode and is likewise outside
the source. -/

lemma extract_text_from_pdf_propagates_exception (e : String) :
    extract_text_from_pdf (Except.error e) = Except.error e := rfl

lemma extract_text_from_docx_propagates_exception (e : String)
    (fs : List String) (tmp_path : String) :
    (extract_text_from_docx (Except.error e) fs tmp_path).1 = Except.error e := rfl
